import Mathlib

/-!
Shallow embedding of `jenkins/cling_build.py` (the cling Jenkins build
driver).  The script resolves a build plan from trigger metadata and
operator flags (`Builder.__init__`), then drives a fixed pipeline of
stages (`Builder.build`): clean, configure, make (with documentation),
test, publish documentation, packaging, housekeeping.

External effects (subprocess calls, filesystem queries and mutations)
are modelled by a state monad `M` over a state `St` that carries an
oracle `Nat → Bool`: every interaction with the outside world consumes
the next oracle bit, in program order.  For a directory-existence query
the bit is the answer; for a fallible action (a `check_call`ed
subprocess, `shutil.rmtree`, `mkdir_p`, `os.chdir`, a file write, a
`tarfile`/`copytree` operation) the bit says whether the action
succeeds; an action whose failure the source ignores
(`subprocess.call`, used for the clang test suite) consumes its bit but
always continues.  A failing action raises, modelled by the `Option`
short-circuit of `M`, exactly as a Python exception propagates out of
`Builder.build` and makes the process exit non-zero.  Every performed
effect is appended to a trace; the `print('STEP: ...')` markers of
`Builder.build` are recorded in a separate `steps` list.
-/

namespace ClingBuild

/-- Python substring test `n in h`, on character lists (`containsAux n h`
checks whether `n` occurs inside `h`). -/
def containsAux (n : List Char) : List Char → Bool
  | [] => n.isEmpty
  | c :: t => n.isPrefixOf (c :: t) || containsAux n t

/-- Python `n in h` on strings: `n` is a substring of `h`. -/
def strContains (h n : String) : Bool :=
  containsAux n.toList h.toList

/-- Number of (possibly overlapping) occurrences of `n` in a character list. -/
def countOccAux (n : List Char) : List Char → Nat
  | [] => 0
  | c :: t => (if n.isPrefixOf (c :: t) then 1 else 0) + countOccAux n t

/-- Number of occurrences of the substring `n` in the string `h`. -/
def countOcc (h n : String) : Nat :=
  countOccAux n.toList h.toList

/-- Model of `os.path.join` for two components. -/
def pjoin (a b : String) : String := a ++ "/" ++ b

/-- Resolution-time environment of `Builder.__init__`: the current date
(`str(date.today())`), whether `os.path.isdir('obj')` holds at plan
resolution, and `distutils.spawn.find_executable`. -/
structure Env where
  today : String
  objExists : Bool
  findExecutable : String → Option String

/-- Caller-supplied constructor arguments of `Builder.__init__`.
`buildcause` is `os.environ.get('ROOT_BUILD_CAUSE')`, hence optional. -/
structure Args where
  workspace : String
  label : String
  generatorType : String
  cleanbuild : Bool
  binaries : Bool
  buildcause : Option String
  testcling : Bool
  testllvmclang : Bool

/-- The resolved build plan: the fields `Builder.__init__` stores on `self`. -/
structure Builder where
  today : String
  workspace : String
  label : String
  generatorType : String
  testcling : Bool
  testllvmclang : Bool
  doxygen : Bool
  parallelFlag : String
  instdir : String
  cleanbuild : Bool
  binaries : Bool
  cmake : String

/-- Lines 86-96 of `cling_build.py`: reconcile the Jenkins build cause
with the caller-supplied `binaries`/`cleanbuild` flags.  Returns the
pair `(binaries, cleanbuild)` after the trigger block ran. -/
def resolveTrigger (buildcause : Option String) (binaries cleanbuild : Bool) :
    Bool × Bool :=
  match buildcause with
  | some bc =>
    if bc ≠ "MANUALTRIGGER" then
      if strContains bc ("TIMERTRIGGER") then (true, true)
      else if strContains bc ("SCMTRIGGER") then (false, false)
      else (binaries, cleanbuild)
    else (binaries, cleanbuild)
  | none => (binaries, cleanbuild)

/-- Model of `Builder.__init__` from `jenkins/cling_build.py`: trigger
reconciliation (nightly wins over SCM, manual trigger keeps caller
flags), install-directory stamping, forced clean when binaries are
published or no `obj` directory exists, and cmake fallback resolution. -/
def Builder.init (env : Env) (a : Args) : Builder :=
  let doxygen := strContains a.label ("ubuntu22")
  let parallelFlag := if a.generatorType = "Unix Makefiles" then " -- -j8" else ""
  let resolved := resolveTrigger a.buildcause a.binaries a.cleanbuild
  let binaries := resolved.1
  let cleanbuild := resolved.2
  let instdir := if binaries then "cling_" ++ env.today ++ "_" ++ a.label else "inst"
  let cleanbuild := if binaries then true else cleanbuild
  let cleanbuild := if !env.objExists then true else cleanbuild
  let cmake :=
    match env.findExecutable ("cmake3") with
    | some p => p
    | none =>
      match env.findExecutable ("cmake") with
      | some p => p
      | none =>
        if a.label = "cc7" then
          "/cvmfs/sft.cern.ch/lcg/contrib/CMake/3.7.0/Linux-x86_64/bin/cmake"
        else "/usr/local/bin/cmake"
  { today := env.today
    workspace := a.workspace
    label := a.label
    generatorType := a.generatorType
    testcling := a.testcling
    testllvmclang := a.testllvmclang
    doxygen := doxygen
    parallelFlag := parallelFlag
    instdir := instdir
    cleanbuild := cleanbuild
    binaries := binaries
    cmake := cmake }

/-- One observable effect of the pipeline. -/
inductive Event where
  | callCheck (cmd : String)
  | callNoCheck (cmd : String)
  | rmtree (dir : String)
  | mkdirp (dir : String)
  | chdir (dir : String)
  | writeFile (path : String) (content : String)
  | copytree (src : String) (dst : String)
  | archive (dest : String) (srcs : List String)
  | isdirQ (dir : String) (ans : Bool)
  deriving DecidableEq, Repr

/-- Run state: the outcome oracle, how many oracle bits were consumed,
the `STEP:` markers printed so far, and the effect trace. -/
structure St where
  oracle : Nat → Bool
  clock : Nat
  steps : List String
  trace : List Event

/-- The effect monad: `none` in the first component models a Python
exception propagating (and the process exiting non-zero). -/
def M (α : Type) := St → Option α × St

/-- Return without touching the state. -/
def M.pure {α : Type} (a : α) : M α := fun s => (some a, s)

/-- Sequencing: a raised exception short-circuits everything after it. -/
def M.bind {α β : Type} (x : M α) (f : α → M β) : M β := fun s =>
  match x s with
  | (some a, t) => f a t
  | (none, t) => (none, t)

instance : Monad M where
  pure := M.pure
  bind := M.bind

/-- Model of `print('STEP: ' + name)` in `Builder.build`. -/
def emitStep (name : String) : M Unit :=
  fun s => (some (), { s with steps := s.steps ++ [name] })

/-- Consume the next oracle bit. -/
def next (s : St) : Bool × St :=
  (s.oracle s.clock, { s with clock := s.clock + 1 })

/-- Model of `print_and_call(..., check=True)` (i.e. `subprocess.check_call`):
record the command, fail when the oracle says the call fails. -/
def checkCall (cmd : String) : M Unit :=
  fun s =>
    let p := next s
    (if p.1 then some () else none,
     { p.2 with trace := p.2.trace ++ [Event.callCheck cmd] })

/-- Model of `print_and_call(..., check=False)` (i.e. `subprocess.call`):
the exit status is consumed but ignored, execution always continues. -/
def callNoCheck (cmd : String) : M Unit :=
  fun s =>
    let p := next s
    (some (), { p.2 with trace := p.2.trace ++ [Event.callNoCheck cmd] })

/-- Model of `shutil.rmtree`, which may raise. -/
def rmtree (dir : String) : M Unit :=
  fun s =>
    let p := next s
    (if p.1 then some () else none,
     { p.2 with trace := p.2.trace ++ [Event.rmtree dir] })

/-- Model of `mkdir_p` (raises on errors other than an existing directory). -/
def mkdirp (dir : String) : M Unit :=
  fun s =>
    let p := next s
    (if p.1 then some () else none,
     { p.2 with trace := p.2.trace ++ [Event.mkdirp dir] })

/-- Model of `os.chdir`, which may raise. -/
def chdir (dir : String) : M Unit :=
  fun s =>
    let p := next s
    (if p.1 then some () else none,
     { p.2 with trace := p.2.trace ++ [Event.chdir dir] })

/-- Model of `open(path, 'wb')` followed by `write(content)` and `close()`. -/
def writeFile (path content : String) : M Unit :=
  fun s =>
    let p := next s
    (if p.1 then some () else none,
     { p.2 with trace := p.2.trace ++ [Event.writeFile path content] })

/-- Model of `shutil.copytree`, which may raise. -/
def copytree (src dst : String) : M Unit :=
  fun s =>
    let p := next s
    (if p.1 then some () else none,
     { p.2 with trace := p.2.trace ++ [Event.copytree src dst] })

/-- Model of a `tarfile.open` / `add*` / `close` group, which may raise. -/
def archive (dest : String) (srcs : List String) : M Unit :=
  fun s =>
    let p := next s
    (if p.1 then some () else none,
     { p.2 with trace := p.2.trace ++ [Event.archive dest srcs] })

/-- Model of `os.path.isdir`: the oracle bit is the answer. -/
def isdir (dir : String) : M Bool :=
  fun s =>
    let p := next s
    (some p.1, { p.2 with trace := p.2.trace ++ [Event.isdirQ dir p.1] })

/-- Model of `Builder.cmake_build`. -/
def Builder.cmake_build (b : Builder) (targetname : String) (check : Bool) : M Unit :=
  let target := if targetname ≠ "" then "--target " ++ targetname else ""
  let cmd := b.cmake ++ " --build . " ++ target ++ b.parallelFlag
  if check then checkCall cmd else callNoCheck cmd

/-- The `if os.path.isdir(d): shutil.rmtree(d)` idiom the source repeats
in `maybe_clean`, `scp_documentation`, `packaging` and `housekeeping`. -/
def rmIfDir (d : String) : M Unit := do
  let e ← isdir d
  if e then rmtree d

/-- Model of `Builder.maybe_clean`. -/
def Builder.maybe_clean (b : Builder) : M Unit := do
  if b.cleanbuild then
    rmIfDir b.instdir
    rmIfDir ("obj")

/-- The cmake configure command line built by `Builder.configure`. -/
def configureCmd (b : Builder) : String :=
  let doxygen :=
    if b.doxygen then " -DLLVM_ENABLE_DOXYGEN=On -DLLVM_INCLUDE_DOCS=On" else ""
  b.cmake
    ++ " -DCMAKE_BUILD_TYPE=Release"
    ++ " -DLLVM_BUILD_TOOLS=Off"
    ++ " -DCMAKE_INSTALL_PREFIX=" ++ b.workspace ++ "/" ++ b.instdir
    ++ " -DLLVM_EXTERNAL_PROJECTS=cling -DLLVM_EXTERNAL_CLING_SOURCE_DIR="
    ++ b.workspace ++ "/cling"
    ++ " -DLLVM_ENABLE_PROJECTS=clang"
    ++ " -DLLVM_TARGETS_TO_BUILD=\"host;NVPTX\""
    ++ " \"-DLLVM_LIT_ARGS=-sv --no-progress-bar --xunit-xml-output=lit-xunit-output.xml\""
    ++ doxygen
    ++ " ../src/llvm"

/-- Model of `Builder.configure`: only runs cmake when `cleanbuild`. -/
def Builder.configure (b : Builder) : M Unit := do
  if b.cleanbuild then
    checkCall (configureCmd b)

/-- Model of `Builder.documentation`. -/
def Builder.documentation (b : Builder) : M Unit := do
  if b.doxygen then
    b.cmake_build ("doxygen-cling") true
    mkdirp ("tools/clang/docs/doxygen/html")
    mkdirp ("docs/doxygen/html")

/-- Model of `Builder.make`: default build target, documentation, install. -/
def Builder.make (b : Builder) : M Unit := do
  b.cmake_build ("") true
  b.documentation
  b.cmake_build ("install") true

/-- Fixed relative path of the synthetic xunit report. -/
def xunitPath : String := "tools/cling/test/lit-xunit-output.xml"

/-- Literal content of the synthetic xunit report written when the cling
test suite is skipped. -/
def xunitContent : String :=
  "<testsuite tests=\"1\" skipped=\"1\"><testcase classname=\"SKIPPED\" name=\"SKIPPED\"><skipped/></testcase></testsuite>"

/-- Model of `Builder.maybe_test`: run `cling-test` (fatal) or write the
synthetic report; then, when requested, `check-llvm` (fatal) followed by
`clang-test` with the outcome ignored. -/
def Builder.maybe_test (b : Builder) : M Unit :=
  (if b.testcling then b.cmake_build ("cling-test") true
   else writeFile xunitPath xunitContent) >>= fun _ =>
  (if b.testllvmclang then do
      b.cmake_build ("check-llvm") true
      b.cmake_build ("clang-test") false
   else pure ())

/-- The rsync command published in `Builder.scp_documentation`. -/
def rsyncCmd : String :=
  "rsync -avz -e \"ssh -K -o StrictHostKeyChecking=no -o UserKnownHostsFile=/dev/null\" doxygen lxplus:/eos/project/r/root-eos/www/cling/"

/-- Model of `Builder.scp_documentation`. -/
def Builder.scp_documentation (b : Builder) : M Unit := do
  if b.doxygen && b.binaries then
    rmIfDir ("doxygen")
    copytree (pjoin (pjoin (pjoin b.instdir ("docs")) ("html")) ("html")) ("doxygen")
    checkCall rsyncCmd

/-- Destination of the dated source snapshot bundle. -/
def srcTarPath (b : Builder) : String :=
  pjoin ("artifacts") ("cling_" ++ b.today ++ "_sources.tar.bz2")

/-- Lines 191-197 of `cling_build.py`: inside `packaging`, when doxygen
is enabled, grab the generated docs from the install tree into a dated
archive under `artifacts`. -/
def Builder.packDocs (b : Builder) : M Unit := do
  if b.doxygen then
    chdir (pjoin b.instdir ("docs"))
    archive (pjoin b.workspace (pjoin ("artifacts") ("cling_" ++ b.today ++ "_docs.tar.bz2"))) [("html")]
    chdir b.workspace

/-- Model of `Builder.packaging`. -/
def Builder.packaging (b : Builder) : M Unit := do
  rmIfDir ("artifacts")
  mkdirp ("artifacts")
  if b.binaries then
    b.packDocs
    archive (pjoin ("artifacts") (b.instdir ++ ".tar.bz2")) [b.instdir]
    if b.label = "ubuntu22" then
      rmtree ("src/.git")
      archive (srcTarPath b) [("src")]

/-- Model of `Builder.housekeeping`. -/
def Builder.housekeeping (b : Builder) : M Unit :=
  rmIfDir b.instdir

/-- Model of `Builder.build`: the pipeline driver. -/
def Builder.build (b : Builder) : M Unit := do
  emitStep ("CLEAN")
  b.maybe_clean
  mkdirp ("obj")
  chdir ("obj")
  emitStep ("CONFIGURE")
  b.configure
  emitStep ("MAKE")
  b.make
  emitStep ("TEST")
  b.maybe_test
  chdir b.workspace
  emitStep ("COPY DOC TO EOS")
  b.scp_documentation
  emitStep ("PACKAGING")
  b.packaging
  emitStep ("HOUSEKEEPING")
  b.housekeeping

/-- Run the pipeline from a fresh state with the given oracle. -/
def runBuild (b : Builder) (o : Nat → Bool) : Option Unit × St :=
  b.build { oracle := o, clock := 0, steps := [], trace := [] }

/-- Exit status of the process: zero when `Builder.build` returned
normally, non-zero when an exception propagated. -/
def exitCode (out : Option Unit × St) : Nat :=
  if out.1.isSome then 0 else 1

/-- The `STEP:` markers printed by a complete run, in order. -/
def canonicalSteps : List String :=
  [("CLEAN"), ("CONFIGURE"), ("MAKE"), ("TEST"), ("COPY DOC TO EOS"),
   ("PACKAGING"), ("HOUSEKEEPING")]

/-- Scan up to the next `'>'`; return the characters before it and the
remainder after it, or `none` when no `'>'` follows. -/
def upTo : List Char → Option (List Char × List Char)
  | [] => none
  | c :: t =>
    if c = '>' then some ([], t)
    else
      match upTo t with
      | some p => some (c :: p.1, p.2)
      | none => none

/-- Name part of a tag body: everything before the first space or slash. -/
def tagName (cs : List Char) : List Char :=
  cs.takeWhile (fun c => !(c == ' ' || c == '/'))

/-- Fuel-bounded scanner checking that tags are balanced and properly
nested: an opening tag pushes its name, a closing tag must match the
top of the stack, a self-closing tag leaves the stack unchanged. -/
def xmlScan : Nat → List Char → List (List Char) → Bool
  | 0, _, _ => false
  | _ + 1, [], stack => stack.isEmpty
  | fuel + 1, c :: t, stack =>
    if c = '<' then
      match upTo t with
      | none => false
      | some (tag, rest) =>
        if tag = [] then false
        else if tag.head? = some '/' then
          match stack with
          | [] => false
          | top :: stk =>
            if top = tagName (tag.drop 1) then xmlScan fuel rest stk else false
        else if tag.getLast? = some '/' then xmlScan fuel rest stack
        else xmlScan fuel rest (tagName tag :: stack)
    else xmlScan fuel t stack

/-- A string is well-formed XML (for this fragment language): its tags
are balanced and properly nested. -/
def wellFormedXml (s : String) : Bool :=
  xmlScan (s.length + 1) s.toList []

/-- Environment of the housekeeping-failure scenario: manual build,
`obj` present, no cmake executable on the search path. -/
def hkEnv : Env :=
  { today := ("2026-10-12"), objExists := true, findExecutable := fun _ => none }

/-- Arguments of the housekeeping-failure scenario: manual trigger,
incremental unpublished build, cling tests on, upstream tests off. -/
def hkArgs : Args :=
  { workspace := ("/ws"), label := ("slc6"), generatorType := ("Unix Makefiles"),
    cleanbuild := false, binaries := false, buildcause := some ("MANUALTRIGGER"),
    testcling := true, testllvmclang := false }

/-- Oracle of the housekeeping-failure scenario: every external action
succeeds, `artifacts` does not pre-exist (bit 6), the install directory
exists at housekeeping time (bit 8 is true by default) and its removal
fails (bit 9). -/
def hkOracle : Nat → Bool :=
  fun n => !(n == 6 || n == 9)

/-- Arguments of the configure-failure scenario: caller-requested clean
build, no trigger metadata. -/
def cfgArgs : Args :=
  { workspace := ("/ws"), label := ("slc6"), generatorType := ("Unix Makefiles"),
    cleanbuild := true, binaries := false, buildcause := none,
    testcling := true, testllvmclang := false }

/-- Oracle of the configure-failure scenario: neither the install nor
the `obj` directory pre-exists (bits 0 and 1), `mkdir`/`chdir` succeed,
and the configure invocation itself fails (bit 4). -/
def cfgOracle : Nat → Bool :=
  fun n => !(n == 0 || n == 1 || n == 4)

/-- Arguments of the documentation-gating scenario: nightly trigger on
an `ubuntu2204` node, so binaries are published and doxygen is enabled. -/
def docArgs : Args :=
  { workspace := ("/ws"), label := ("ubuntu2204"), generatorType := ("Unix Makefiles"),
    cleanbuild := false, binaries := false, buildcause := some ("TIMERTRIGGER"),
    testcling := true, testllvmclang := true }

/-- The ordering contract of a pipeline run: the printed step markers
form a prefix of the canonical stage order, and a run that returned
normally printed them all. -/
def StepsOk (out : Option Unit × St) : Prop :=
  ∃ l, l <+: canonicalSteps ∧ out.2.steps = l
    ∧ (out.1 = some () → l = canonicalSteps)

/-- A computation never touches the list of printed `STEP:` markers. -/
def PreservesSteps {α : Type} (m : M α) : Prop :=
  ∀ s : St, ((m s).2).steps = s.steps

/-- A computation only appends to the trace. -/
def TraceMono {α : Type} (m : M α) : Prop :=
  ∀ s : St, s.trace <+: ((m s).2).trace

/-- Every event a computation appends to the trace satisfies `P`. -/
def TraceAdds {α : Type} (P : Event → Prop) (m : M α) : Prop :=
  ∀ s : St, ∀ e ∈ ((m s).2).trace, e ∈ s.trace ∨ P e

/-! Theorems about the plan resolver. -/

/-- The resolved plan keeps the node label verbatim. -/
theorem init_label (env : Env) (a : Args) : (Builder.init env a).label = a.label := by
  unfold Builder.init
  rfl

/-- The resolved plan keeps the workspace verbatim. -/
theorem init_workspace (env : Env) (a : Args) :
    (Builder.init env a).workspace = a.workspace := by
  unfold Builder.init
  rfl

/-- The documentation flag is exactly the `'ubuntu22' in label` substring test. -/
theorem init_doxygen (env : Env) (a : Args) :
    (Builder.init env a).doxygen = strContains a.label ("ubuntu22") := by
  unfold Builder.init
  rfl

/-- A plan that publishes binaries is clean and has the stamped install name. -/
theorem init_binaries_spec (env : Env) (a : Args)
    (hb : (Builder.init env a).binaries = true) :
    (Builder.init env a).cleanbuild = true
    ∧ (Builder.init env a).instdir = "cling_" ++ env.today ++ "_" ++ a.label := by
  unfold Builder.init at hb ⊢
  rcases hr : resolveTrigger a.buildcause a.binaries a.cleanbuild with ⟨bb, cc⟩
  rw [hr] at hb
  simp at hb
  simp [hr, hb]

/-- A plan that does not publish binaries uses the fixed install name. -/
theorem init_no_binaries_spec (env : Env) (a : Args)
    (hb : (Builder.init env a).binaries = false) :
    (Builder.init env a).instdir = "inst" := by
  unfold Builder.init at hb ⊢
  rcases hr : resolveTrigger a.buildcause a.binaries a.cleanbuild with ⟨bb, cc⟩
  rw [hr] at hb
  simp at hb
  simp [hr, hb]

/-- Claim C2: every trigger-cause string other than `MANUALTRIGGER` that
contains `TIMERTRIGGER` resolves to `binaries = true` and
`cleanbuild = true`, whatever the caller passed — in particular also
when the same string contains `SCMTRIGGER`, since the timer branch is
tested first. -/
theorem timer_trigger_forces_full_build (env : Env) (a : Args) (bc : String)
    (h1 : a.buildcause = some bc) (h2 : bc ≠ "MANUALTRIGGER")
    (h3 : strContains bc ("TIMERTRIGGER") = true) :
    (Builder.init env a).binaries = true ∧ (Builder.init env a).cleanbuild = true := by
  unfold Builder.init resolveTrigger
  rw [h1]
  simp [h2, h3]

/-- Witness for C2 at a cause string containing both markers and caller
flags requesting an incremental, unpublished build. -/
theorem timer_trigger_forces_full_build_witness :
    (Builder.init
        { today := ("2026-10-12"), objExists := true, findExecutable := fun _ => none }
        { workspace := ("/ws"), label := ("slc6"), generatorType := ("Unix Makefiles"),
          cleanbuild := false, binaries := false,
          buildcause := some ("SCMTRIGGER TIMERTRIGGER"),
          testcling := true, testllvmclang := false }).binaries = true
    ∧ (Builder.init
        { today := ("2026-10-12"), objExists := true, findExecutable := fun _ => none }
        { workspace := ("/ws"), label := ("slc6"), generatorType := ("Unix Makefiles"),
          cleanbuild := false, binaries := false,
          buildcause := some ("SCMTRIGGER TIMERTRIGGER"),
          testcling := true, testllvmclang := false }).cleanbuild = true :=
  timer_trigger_forces_full_build _ _ _ rfl (by decide) (by decide)

/-- Claim C3 counterexample: the claim "every cause string containing
`SCMTRIGGER` yields `publishBinaries = false` and `cleanbuild = false`"
is false on the code.  First conjunct: a cause string containing both
`TIMERTRIGGER` and `SCMTRIGGER` resolves to `binaries = true` (the timer
branch wins).  Second conjunct: even a pure `SCMTRIGGER` cause yields
`cleanbuild = true` when no `obj` directory exists at resolution time. -/
theorem scm_trigger_claim_counterexample :
    (Builder.init
        { today := ("2026-10-12"), objExists := true, findExecutable := fun _ => none }
        { workspace := ("/ws"), label := ("slc6"), generatorType := ("Unix Makefiles"),
          cleanbuild := false, binaries := false,
          buildcause := some ("ROOT_BUILD_CAUSE=TIMERTRIGGER,SCMTRIGGER"),
          testcling := true, testllvmclang := true }).binaries = true
    ∧ (Builder.init
        { today := ("2026-10-12"), objExists := false, findExecutable := fun _ => none }
        { workspace := ("/ws"), label := ("slc6"), generatorType := ("Unix Makefiles"),
          cleanbuild := false, binaries := false,
          buildcause := some ("SCMTRIGGER"),
          testcling := true, testllvmclang := true }).cleanbuild = true :=
  ⟨rfl, rfl⟩

/-- Claim C3 (amended): a cause string containing `SCMTRIGGER` but not
`TIMERTRIGGER` resolves to `binaries = false`, and to
`cleanbuild = false` provided a build-object directory exists at
resolution time, regardless of the caller-supplied flags. -/
theorem scm_trigger_forces_incremental (env : Env) (a : Args) (bc : String)
    (h1 : a.buildcause = some bc)
    (h2 : strContains bc ("SCMTRIGGER") = true)
    (h3 : strContains bc ("TIMERTRIGGER") = false)
    (h4 : env.objExists = true) :
    (Builder.init env a).binaries = false ∧ (Builder.init env a).cleanbuild = false := by
  have hne : bc ≠ "MANUALTRIGGER" := by
    intro h
    rw [h] at h2
    exact absurd h2 (by decide)
  unfold Builder.init resolveTrigger
  rw [h1]
  simp [hne, h2, h3, h4]

/-- Witness for the amended C3 at a pure SCM cause with caller flags
requesting a clean, published build. -/
theorem scm_trigger_forces_incremental_witness :
    (Builder.init
        { today := ("2026-10-12"), objExists := true, findExecutable := fun _ => none }
        { workspace := ("/ws"), label := ("cc7"), generatorType := ("Unix Makefiles"),
          cleanbuild := true, binaries := true,
          buildcause := some ("SCMTRIGGER"),
          testcling := false, testllvmclang := false }).binaries = false
    ∧ (Builder.init
        { today := ("2026-10-12"), objExists := true, findExecutable := fun _ => none }
        { workspace := ("/ws"), label := ("cc7"), generatorType := ("Unix Makefiles"),
          cleanbuild := true, binaries := true,
          buildcause := some ("SCMTRIGGER"),
          testcling := false, testllvmclang := false }).cleanbuild = false :=
  scm_trigger_forces_incremental _ _ _ rfl (by decide) (by decide) rfl

/-- Claim C4: whenever the resolved plan publishes binaries it is a clean
build and the install directory is the date+label-stamped name; when it
does not publish, the install directory is the fixed name `inst`; and
the stamping is deterministic in the date and the label. -/
theorem publish_implies_clean_and_stamped (env : Env) (a : Args) :
    ((Builder.init env a).binaries = true →
       (Builder.init env a).cleanbuild = true
       ∧ (Builder.init env a).instdir = "cling_" ++ env.today ++ "_" ++ a.label)
    ∧ ((Builder.init env a).binaries = false →
       (Builder.init env a).instdir = "inst")
    ∧ (∀ (env2 : Env) (a2 : Args), env2.today = env.today → a2.label = a.label →
        (Builder.init env2 a2).binaries = true → (Builder.init env a).binaries = true →
        (Builder.init env2 a2).instdir = (Builder.init env a).instdir) := by
  refine ⟨fun hb => init_binaries_spec env a hb, fun hb => init_no_binaries_spec env a hb,
    fun env2 a2 ht hl hb2 hb => ?_⟩
  rw [(init_binaries_spec env2 a2 hb2).2, (init_binaries_spec env a hb).2, ht, hl]

/-- Witness for C4 on a nightly-trigger plan: binaries are published,
hence the build is clean and the install directory is stamped. -/
theorem publish_implies_clean_and_stamped_witness :
    (Builder.init
        { today := ("2026-10-12"), objExists := true, findExecutable := fun _ => none }
        { workspace := ("/ws"), label := ("ubuntu2204"), generatorType := ("Unix Makefiles"),
          cleanbuild := false, binaries := false,
          buildcause := some ("TIMERTRIGGER"),
          testcling := true, testllvmclang := true }).cleanbuild = true
    ∧ (Builder.init
        { today := ("2026-10-12"), objExists := true, findExecutable := fun _ => none }
        { workspace := ("/ws"), label := ("ubuntu2204"), generatorType := ("Unix Makefiles"),
          cleanbuild := false, binaries := false,
          buildcause := some ("TIMERTRIGGER"),
          testcling := true, testllvmclang := true }).instdir
      = "cling_" ++ ("2026-10-12") ++ "_" ++ ("ubuntu2204") :=
  (publish_implies_clean_and_stamped
    { today := ("2026-10-12"), objExists := true, findExecutable := fun _ => none }
    { workspace := ("/ws"), label := ("ubuntu2204"), generatorType := ("Unix Makefiles"),
      cleanbuild := false, binaries := false,
      buildcause := some ("TIMERTRIGGER"),
      testcling := true, testllvmclang := true }).1 rfl

/-- Claim C8: when no build-object directory exists at resolution time the
resolved plan always has `cleanbuild = true`, whatever the trigger and
the caller-supplied flags. -/
theorem missing_obj_forces_clean (env : Env) (a : Args)
    (h : env.objExists = false) :
    (Builder.init env a).cleanbuild = true := by
  unfold Builder.init
  simp [h]

/-- Witness for C8: no trigger metadata, caller requested
`cleanbuild = false`, no `obj` directory on disk. -/
theorem missing_obj_forces_clean_witness :
    (Builder.init
        { today := ("2026-10-12"), objExists := false, findExecutable := fun _ => none }
        { workspace := ("/ws"), label := ("slc6"), generatorType := ("Unix Makefiles"),
          cleanbuild := false, binaries := false, buildcause := none,
          testcling := true, testllvmclang := true }).cleanbuild = true :=
  missing_obj_forces_clean _ _ rfl

/-- Claim C9: cmake resolution is total and follows the fallback chain:
`cmake3` from the search path if found, else `cmake`, else the
hardcoded cc7 path when the label is `cc7`, else `/usr/local/bin/cmake`. -/
theorem cmake_resolution_chain (env : Env) (a : Args) :
    (∀ p, env.findExecutable ("cmake3") = some p → (Builder.init env a).cmake = p)
    ∧ (env.findExecutable ("cmake3") = none →
        ∀ p, env.findExecutable ("cmake") = some p → (Builder.init env a).cmake = p)
    ∧ (env.findExecutable ("cmake3") = none → env.findExecutable ("cmake") = none →
        (Builder.init env a).cmake =
          if a.label = "cc7" then
            "/cvmfs/sft.cern.ch/lcg/contrib/CMake/3.7.0/Linux-x86_64/bin/cmake"
          else "/usr/local/bin/cmake") := by
  refine ⟨?_, ?_, ?_⟩
  · intro p h
    unfold Builder.init
    simp [h]
  · intro h3 p h
    unfold Builder.init
    simp [h3, h]
  · intro h3 h
    unfold Builder.init
    simp [h3, h]

/-- Witness for C9: neither executable found, label not `cc7`, so the
generic default path is used. -/
theorem cmake_resolution_chain_witness :
    (Builder.init
        { today := ("2026-10-12"), objExists := true, findExecutable := fun _ => none }
        { workspace := ("/ws"), label := ("slc6"), generatorType := ("Unix Makefiles"),
          cleanbuild := true, binaries := false, buildcause := none,
          testcling := true, testllvmclang := true }).cmake =
      if (("slc6") : String) = "cc7" then
        "/cvmfs/sft.cern.ch/lcg/contrib/CMake/3.7.0/Linux-x86_64/bin/cmake"
      else "/usr/local/bin/cmake" :=
  (cmake_resolution_chain
    { today := ("2026-10-12"), objExists := true, findExecutable := fun _ => none }
    { workspace := ("/ws"), label := ("slc6"), generatorType := ("Unix Makefiles"),
      cleanbuild := true, binaries := false, buildcause := none,
      testcling := true, testllvmclang := true }).2.2 rfl rfl

/-! Infrastructure lemmas about the effect monad. -/

/-- Running `pure` leaves the state unchanged. -/
theorem run_pure {α : Type} (a : α) (s : St) : (pure a : M α) s = (some a, s) := rfl

/-- Running a bind whose head returned normally. -/
theorem bind_some {α β : Type} {x : M α} {f : α → M β} {s : St} {a : α} {t : St}
    (h : x s = (some a, t)) : (x >>= f) s = f a t := by
  show M.bind x f s = f a t
  unfold M.bind
  rw [h]

/-- Running a bind whose head raised. -/
theorem bind_none {α β : Type} {x : M α} {f : α → M β} {s : St} {t : St}
    (h : x s = (none, t)) : (x >>= f) s = (none, t) := by
  show M.bind x f s = (none, t)
  unfold M.bind
  rw [h]

/-- Unfolding lemma for running a bind. -/
theorem run_bind {α β : Type} (x : M α) (f : α → M β) (s : St) :
    (x >>= f) s =
      match x s with
      | (some a, t) => f a t
      | (none, t) => (none, t) := rfl

/-- A `pure` computation never prints a step marker. -/
theorem ps_pure {α : Type} (a : α) : PreservesSteps (pure a : M α) :=
  fun _ => rfl

/-- Step preservation is closed under bind. -/
theorem ps_bind {α β : Type} {x : M α} {f : α → M β}
    (hx : PreservesSteps x) (hf : ∀ a, PreservesSteps (f a)) :
    PreservesSteps (x >>= f) := by
  intro s
  rcases h : x s with ⟨r, t⟩
  have ht : t.steps = s.steps := by
    have hs := hx s
    rw [h] at hs
    exact hs
  cases r with
  | none =>
    rw [bind_none h]
    exact ht
  | some a =>
    rw [bind_some h]
    rw [hf a t]
    exact ht

/-- Step preservation is closed under if-then-else. -/
theorem ps_ite {α : Type} {c : Prop} [Decidable c] {x y : M α}
    (hx : PreservesSteps x) (hy : PreservesSteps y) :
    PreservesSteps (if c then x else y) := by
  by_cases h : c <;> simp [h] <;> assumption

/-- The `check_call` model never prints a step marker. -/
theorem ps_checkCall (cmd : String) : PreservesSteps (checkCall cmd) :=
  fun _ => rfl

/-- The `call` model never prints a step marker. -/
theorem ps_callNoCheck (cmd : String) : PreservesSteps (callNoCheck cmd) :=
  fun _ => rfl

/-- The `rmtree` model never prints a step marker. -/
theorem ps_rmtree (d : String) : PreservesSteps (rmtree d) :=
  fun _ => rfl

/-- The `mkdir_p` model never prints a step marker. -/
theorem ps_mkdirp (d : String) : PreservesSteps (mkdirp d) :=
  fun _ => rfl

/-- The `chdir` model never prints a step marker. -/
theorem ps_chdir (d : String) : PreservesSteps (chdir d) :=
  fun _ => rfl

/-- The file-write model never prints a step marker. -/
theorem ps_writeFile (p c : String) : PreservesSteps (writeFile p c) :=
  fun _ => rfl

/-- The `copytree` model never prints a step marker. -/
theorem ps_copytree (a b : String) : PreservesSteps (copytree a b) :=
  fun _ => rfl

/-- The archive model never prints a step marker. -/
theorem ps_archive (d : String) (l : List String) : PreservesSteps (archive d l) :=
  fun _ => rfl

/-- The `isdir` model never prints a step marker. -/
theorem ps_isdir (d : String) : PreservesSteps (isdir d) :=
  fun _ => rfl

/-- The remove-if-present idiom never prints a step marker. -/
theorem ps_rmIfDir (d : String) : PreservesSteps (rmIfDir d) := by
  unfold rmIfDir
  refine ps_bind (ps_isdir _) fun e => ?_
  exact ps_ite (ps_rmtree _) (ps_pure _)

/-- Stage `maybe_clean` never prints a step marker. -/
theorem ps_maybe_clean (b : Builder) : PreservesSteps b.maybe_clean := by
  unfold Builder.maybe_clean
  refine ps_ite ?_ (ps_pure _)
  exact ps_bind (ps_rmIfDir _) fun _ => ps_rmIfDir _

/-- Stage `configure` never prints a step marker. -/
theorem ps_configure (b : Builder) : PreservesSteps b.configure := by
  unfold Builder.configure
  exact ps_ite (ps_checkCall _) (ps_pure _)

/-- A `cmake_build` call never prints a step marker. -/
theorem ps_cmake_build (b : Builder) (tn : String) (ch : Bool) :
    PreservesSteps (b.cmake_build tn ch) := by
  unfold Builder.cmake_build
  cases ch <;> simp
  · exact ps_callNoCheck _
  · exact ps_checkCall _

/-- Stage `documentation` never prints a step marker. -/
theorem ps_documentation (b : Builder) : PreservesSteps b.documentation := by
  unfold Builder.documentation
  refine ps_ite ?_ (ps_pure _)
  refine ps_bind (ps_cmake_build _ _ _) fun _ => ?_
  exact ps_bind (ps_mkdirp _) fun _ => ps_mkdirp _

/-- Stage `make` never prints a step marker. -/
theorem ps_make (b : Builder) : PreservesSteps b.make := by
  unfold Builder.make
  refine ps_bind (ps_cmake_build _ _ _) fun _ => ?_
  exact ps_bind (ps_documentation _) fun _ => ps_cmake_build _ _ _

/-- Stage `maybe_test` never prints a step marker. -/
theorem ps_maybe_test (b : Builder) : PreservesSteps b.maybe_test := by
  unfold Builder.maybe_test
  refine ps_bind (ps_ite (ps_cmake_build _ _ _) (ps_writeFile _ _)) fun _ => ?_
  refine ps_ite ?_ (ps_pure _)
  exact ps_bind (ps_cmake_build _ _ _) fun _ => ps_cmake_build _ _ _

/-- Stage `scp_documentation` never prints a step marker. -/
theorem ps_scp_documentation (b : Builder) : PreservesSteps b.scp_documentation := by
  unfold Builder.scp_documentation
  refine ps_ite ?_ (ps_pure _)
  refine ps_bind (ps_rmIfDir _) fun _ => ?_
  exact ps_bind (ps_copytree _ _) fun _ => ps_checkCall _

/-- The docs sub-step of packaging never prints a step marker. -/
theorem ps_packDocs (b : Builder) : PreservesSteps b.packDocs := by
  unfold Builder.packDocs
  refine ps_ite ?_ (ps_pure _)
  refine ps_bind (ps_chdir _) fun _ => ?_
  exact ps_bind (ps_archive _ _) fun _ => ps_chdir _

/-- Stage `packaging` never prints a step marker. -/
theorem ps_packaging (b : Builder) : PreservesSteps b.packaging := by
  unfold Builder.packaging
  refine ps_bind (ps_rmIfDir _) fun _ => ?_
  refine ps_bind (ps_mkdirp _) fun _ => ?_
  refine ps_ite ?_ (ps_pure _)
  refine ps_bind (ps_packDocs _) fun _ => ?_
  refine ps_bind (ps_archive _ _) fun _ => ?_
  refine ps_ite ?_ (ps_pure _)
  exact ps_bind (ps_rmtree _) fun _ => ps_archive _ _

/-- Stage `housekeeping` never prints a step marker. -/
theorem ps_housekeeping (b : Builder) : PreservesSteps b.housekeeping := by
  unfold Builder.housekeeping
  exact ps_rmIfDir _

/-- A `pure` computation leaves the trace unchanged. -/
theorem tm_pure {α : Type} (a : α) : TraceMono (pure a : M α) :=
  fun s => List.prefix_refl s.trace

/-- Trace monotonicity is closed under bind. -/
theorem tm_bind {α β : Type} {x : M α} {f : α → M β}
    (hx : TraceMono x) (hf : ∀ a, TraceMono (f a)) : TraceMono (x >>= f) := by
  intro s
  rcases h : x s with ⟨r, t⟩
  have ht : s.trace <+: t.trace := by
    have hs := hx s
    rw [h] at hs
    exact hs
  cases r with
  | none =>
    rw [bind_none h]
    exact ht
  | some a =>
    rw [bind_some h]
    exact ht.trans (hf a t)

/-- Trace monotonicity is closed under if-then-else. -/
theorem tm_ite {α : Type} {c : Prop} [Decidable c] {x y : M α}
    (hx : TraceMono x) (hy : TraceMono y) : TraceMono (if c then x else y) := by
  by_cases h : c <;> simp [h] <;> assumption

/-- The `check_call` model only appends to the trace. -/
theorem tm_checkCall (cmd : String) : TraceMono (checkCall cmd) :=
  fun s => List.prefix_append s.trace _

/-- The `call` model only appends to the trace. -/
theorem tm_callNoCheck (cmd : String) : TraceMono (callNoCheck cmd) :=
  fun s => List.prefix_append s.trace _

/-- A `cmake_build` call only appends to the trace. -/
theorem tm_cmake_build (b : Builder) (tn : String) (ch : Bool) :
    TraceMono (b.cmake_build tn ch) := by
  unfold Builder.cmake_build
  cases ch <;> simp
  · exact tm_callNoCheck _
  · exact tm_checkCall _

/-- A computation that appends only events satisfying `P` keeps old events. -/
theorem ta_pure {α : Type} {P : Event → Prop} (a : α) : TraceAdds P (pure a : M α) :=
  fun _ _ he => Or.inl he

/-- The appended-events property is closed under bind. -/
theorem ta_bind {α β : Type} {P : Event → Prop} {x : M α} {f : α → M β}
    (hx : TraceAdds P x) (hf : ∀ a, TraceAdds P (f a)) : TraceAdds P (x >>= f) := by
  intro s e he
  rcases h : x s with ⟨r, t⟩
  have hxt : e ∈ t.trace → e ∈ s.trace ∨ P e := by
    intro hm
    have := hx s e
    rw [h] at this
    exact this hm
  cases r with
  | none =>
    rw [bind_none h] at he
    exact hxt he
  | some a =>
    rw [bind_some h] at he
    rcases hf a t e he with hm | hp
    · exact hxt hm
    · exact Or.inr hp

/-- The appended-events property is closed under if-then-else. -/
theorem ta_ite {α : Type} {P : Event → Prop} {c : Prop} [Decidable c] {x y : M α}
    (hx : TraceAdds P x) (hy : TraceAdds P y) : TraceAdds P (if c then x else y) := by
  by_cases h : c <;> simp [h] <;> assumption

/-- Helper for the primitives: an element of `l ++ [ev]` is in `l` or is `ev`. -/
theorem mem_append_single {e ev : Event} {l : List Event}
    (he : e ∈ l ++ [ev]) : e ∈ l ∨ e = ev := by
  rcases List.mem_append.mp he with h | h
  · exact Or.inl h
  · exact Or.inr (List.mem_singleton.mp h)

/-- The `isdir` model appends only its query event. -/
theorem ta_isdir {P : Event → Prop} (d : String)
    (hP : ∀ ans, P (Event.isdirQ d ans)) : TraceAdds P (isdir d) := by
  intro s e he
  rcases mem_append_single he with h | h
  · exact Or.inl h
  · rw [h]
    exact Or.inr (hP _)

/-- The `rmtree` model appends only its removal event. -/
theorem ta_rmtree {P : Event → Prop} (d : String)
    (hP : P (Event.rmtree d)) : TraceAdds P (rmtree d) := by
  intro s e he
  rcases mem_append_single he with h | h
  · exact Or.inl h
  · rw [h]
    exact Or.inr hP

/-- The `mkdir_p` model appends only its creation event. -/
theorem ta_mkdirp {P : Event → Prop} (d : String)
    (hP : P (Event.mkdirp d)) : TraceAdds P (mkdirp d) := by
  intro s e he
  rcases mem_append_single he with h | h
  · exact Or.inl h
  · rw [h]
    exact Or.inr hP

/-- The `chdir` model appends only its event. -/
theorem ta_chdir {P : Event → Prop} (d : String)
    (hP : P (Event.chdir d)) : TraceAdds P (chdir d) := by
  intro s e he
  rcases mem_append_single he with h | h
  · exact Or.inl h
  · rw [h]
    exact Or.inr hP

/-- The archive model appends only its event. -/
theorem ta_archive {P : Event → Prop} (d : String) (l : List String)
    (hP : P (Event.archive d l)) : TraceAdds P (archive d l) := by
  intro s e he
  rcases mem_append_single he with h | h
  · exact Or.inl h
  · rw [h]
    exact Or.inr hP

/-- The remove-if-present idiom appends only its query and removal events. -/
theorem ta_rmIfDir {P : Event → Prop} (d : String)
    (h1 : ∀ ans, P (Event.isdirQ d ans)) (h2 : P (Event.rmtree d)) :
    TraceAdds P (rmIfDir d) := by
  unfold rmIfDir
  exact ta_bind (ta_isdir d h1) fun _ => ta_ite (ta_rmtree d h2) (ta_pure _)

/-! Theorems about the pipeline stages. -/

/-- Claim C5 counterexample: the claim "a housekeeping failure does not change
the pipeline outcome or the process exit status" is false on the code.
In a run where every stage succeeds and only the final
`shutil.rmtree(self.instdir)` of `housekeeping` fails, all seven stage
markers were printed (housekeeping was reached), the last performed
action is the failing removal of `inst`, and yet the run aborts with a
non-zero exit status. -/
theorem housekeeping_failure_claim_counterexample :
    (runBuild (Builder.init hkEnv hkArgs) hkOracle).1 = none
    ∧ (runBuild (Builder.init hkEnv hkArgs) hkOracle).2.steps = canonicalSteps
    ∧ (runBuild (Builder.init hkEnv hkArgs) hkOracle).2.trace.getLast?
        = some (Event.rmtree ("inst"))
    ∧ exitCode (runBuild (Builder.init hkEnv hkArgs) hkOracle) = 1 :=
  ⟨rfl, rfl, rfl, rfl⟩

/-- Claim C5 (amended): in the housekeeping stage, when the install directory
exists and its removal fails, the exception propagates — the stage
returns abnormally and the process exit status is non-zero.  The failure
is not caught. -/
theorem housekeeping_failure_is_fatal (b : Builder) (s : St)
    (h1 : s.oracle s.clock = true) (h2 : s.oracle (s.clock + 1) = false) :
    (b.housekeeping s).1 = none ∧ exitCode (b.housekeeping s) = 1 := by
  have hn : (b.housekeeping s).1 = none := by
    simp [Builder.housekeeping, rmIfDir, run_bind, isdir, rmtree, next, h1, h2]
  exact ⟨hn, by simp [exitCode, hn]⟩

/-- Witness for the amended C5 at a concrete state. -/
theorem housekeeping_failure_is_fatal_witness :
    ((Builder.init hkEnv hkArgs).housekeeping
        { oracle := fun n => n == 0, clock := 0, steps := [], trace := [] }).1 = none
    ∧ exitCode ((Builder.init hkEnv hkArgs).housekeeping
        { oracle := fun n => n == 0, clock := 0, steps := [], trace := [] }) = 1 :=
  housekeeping_failure_is_fatal (Builder.init hkEnv hkArgs)
    { oracle := fun n => n == 0, clock := 0, steps := [], trace := [] } rfl rfl

/-- Claim C6: with upstream tests enabled, a failure of `cling-test` (when
primary tests run) or of `check-llvm` aborts the test stage — whether the
primary suite ran or the synthetic report was written instead — while the
outcome of `clang-test` is ignored: once `check-llvm` succeeded (and,
before it, `cling-test` or the report write succeeded), the stage
returns normally whatever the `clang-test` exit status — the theorem
holds for every oracle, in particular for oracles under which
`clang-test` fails. -/
theorem secondary_suite_failure_tolerated (b : Builder) (s : St)
    (h : b.testllvmclang = true) :
    (b.testcling = true →
      (s.oracle s.clock = false → (b.maybe_test s).1 = none)
      ∧ (s.oracle s.clock = true → s.oracle (s.clock + 1) = false →
          (b.maybe_test s).1 = none)
      ∧ (s.oracle s.clock = true → s.oracle (s.clock + 1) = true →
          (b.maybe_test s).1 = some ()))
    ∧ (b.testcling = false →
        (s.oracle s.clock = true → s.oracle (s.clock + 1) = false →
          (b.maybe_test s).1 = none)
        ∧ (s.oracle s.clock = true → s.oracle (s.clock + 1) = true →
          (b.maybe_test s).1 = some ())) := by
  constructor
  · intro htc
    refine ⟨fun hb1 => ?_, fun hb1 hb2 => ?_, fun hb1 hb2 => ?_⟩
    · simp [Builder.maybe_test, Builder.cmake_build, htc, h, run_bind,
        checkCall, callNoCheck, next, hb1]
    · simp [Builder.maybe_test, Builder.cmake_build, htc, h, run_bind,
        checkCall, callNoCheck, next, hb1, hb2]
    · simp [Builder.maybe_test, Builder.cmake_build, htc, h, run_bind,
        checkCall, callNoCheck, next, hb1, hb2]
  · intro htc
    refine ⟨fun hb1 hb2 => ?_, fun hb1 hb2 => ?_⟩
    · simp [Builder.maybe_test, Builder.cmake_build, htc, h, run_bind,
        checkCall, callNoCheck, writeFile, next, hb1, hb2]
    · simp [Builder.maybe_test, Builder.cmake_build, htc, h, run_bind,
      checkCall, callNoCheck, writeFile, next, hb1, hb2]

/-- Witness for C6: primary tests on, `cling-test` and `check-llvm`
succeed, `clang-test`'s bit is false, and the stage still returns
normally. -/
theorem secondary_suite_failure_tolerated_witness :
    ((Builder.init hkEnv
        { workspace := ("/ws"), label := ("slc6"), generatorType := ("Unix Makefiles"),
          cleanbuild := false, binaries := false, buildcause := some ("MANUALTRIGGER"),
          testcling := true, testllvmclang := true }).maybe_test
      { oracle := fun n => !(n == 2), clock := 0, steps := [], trace := [] }).1
    = some () :=
  ((secondary_suite_failure_tolerated
      (Builder.init hkEnv
        { workspace := ("/ws"), label := ("slc6"), generatorType := ("Unix Makefiles"),
          cleanbuild := false, binaries := false, buildcause := some ("MANUALTRIGGER"),
          testcling := true, testllvmclang := true })
      { oracle := fun n => !(n == 2), clock := 0, steps := [], trace := [] }
      rfl).1 rfl).2.2 rfl rfl

/-- Claim C7: whenever the primary test suite is skipped and the file write
succeeds, the test stage records a write of the synthetic report at the
fixed relative path; the written content is well-formed XML, contains
exactly one testcase element, and that report marks the case skipped. -/
theorem skipped_tests_write_valid_report (b : Builder) (s : St)
    (h1 : b.testcling = false) (h2 : s.oracle s.clock = true) :
    Event.writeFile xunitPath xunitContent ∈ ((b.maybe_test s).2).trace
    ∧ xunitPath = "tools/cling/test/lit-xunit-output.xml"
    ∧ wellFormedXml xunitContent = true
    ∧ countOcc xunitContent ("<testcase") = 1
    ∧ strContains xunitContent ("<skipped/>") = true := by
  refine ⟨?_, rfl, by decide, by decide, by decide⟩
  have hw : (if b.testcling = true then b.cmake_build ("cling-test") true
      else writeFile xunitPath xunitContent) s =
      (some (), { s with
        clock := s.clock + 1,
        trace := s.trace ++ [Event.writeFile xunitPath xunitContent] }) := by
    simp [h1, writeFile, next, h2]
  unfold Builder.maybe_test
  rw [bind_some hw]
  have hmem : Event.writeFile xunitPath xunitContent ∈
      ({ s with
         clock := s.clock + 1,
         trace := s.trace ++ [Event.writeFile xunitPath xunitContent] } : St).trace := by
    simp
  exact List.IsPrefix.subset
    ((tm_ite (tm_bind (tm_cmake_build b ("check-llvm") true) fun _ =>
        tm_cmake_build b ("clang-test") false) (tm_pure ())) _) hmem

/-- Witness for C7: a skipped-tests plan writes the report at the fixed
path with the well-formed one-skipped-case content. -/
theorem skipped_tests_write_valid_report_witness :
    Event.writeFile xunitPath xunitContent ∈
      (((Builder.init hkEnv
          { workspace := ("/ws"), label := ("slc6"),
            generatorType := ("Unix Makefiles"),
            cleanbuild := false, binaries := false,
            buildcause := some ("MANUALTRIGGER"),
            testcling := false, testllvmclang := false }).maybe_test
        { oracle := fun _ => true, clock := 0, steps := [], trace := [] }).2).trace
    ∧ xunitPath = "tools/cling/test/lit-xunit-output.xml"
    ∧ wellFormedXml xunitContent = true
    ∧ countOcc xunitContent ("<testcase") = 1
    ∧ strContains xunitContent ("<skipped/>") = true :=
  skipped_tests_write_valid_report
    (Builder.init hkEnv
      { workspace := ("/ws"), label := ("slc6"), generatorType := ("Unix Makefiles"),
        cleanbuild := false, binaries := false, buildcause := some ("MANUALTRIGGER"),
        testcling := false, testllvmclang := false })
    { oracle := fun _ => true, clock := 0, steps := [], trace := [] } rfl rfl

/-- The `mkdir_p` model only appends to the trace. -/
theorem tm_mkdirp (d : String) : TraceMono (mkdirp d) :=
  fun s => List.prefix_append s.trace _

/-- Claim C10: on a plan resolved for label `ubuntu2204` with binaries
published, the two gates differ.  Documentation is substring-gated:
`doxygen` is on (and in general equals the `'ubuntu22' in label` test),
so the `doxygen-cling` build-tool target is invoked in the
documentation sub-stage and the rsync publication runs in the
publish-documentation stage.  The source snapshot is equality-gated: the
packaging stage never archives the `src` tree, because the label is not
exactly `ubuntu22`. -/
theorem docs_substring_gate_vs_source_equality_gate (env : Env) (a : Args)
    (s s2 s3 : St)
    (hl : a.label = "ubuntu2204")
    (hb : (Builder.init env a).binaries = true)
    (h2 : s2.oracle s2.clock = true)
    (h3a : s3.oracle s3.clock = false)
    (h3b : s3.oracle (s3.clock + 1) = true) :
    (Builder.init env a).doxygen = true
    ∧ (∀ (env2 : Env) (a2 : Args),
        (Builder.init env2 a2).doxygen = strContains a2.label ("ubuntu22"))
    ∧ (∀ e ∈ (((Builder.init env a).packaging) s).2.trace,
        e ∈ s.trace ∨ ∀ d, e ≠ Event.archive d [("src")])
    ∧ Event.callCheck ((Builder.init env a).cmake ++ " --build . "
          ++ ("--target " ++ "doxygen-cling") ++ (Builder.init env a).parallelFlag)
        ∈ (((Builder.init env a).documentation) s2).2.trace
    ∧ Event.callCheck rsyncCmd ∈ (((Builder.init env a).scp_documentation) s3).2.trace := by
  have hdox : (Builder.init env a).doxygen = true := by
    rw [init_doxygen, hl]
    decide
  have hinst : (Builder.init env a).instdir ≠ "src" := by
    rw [(init_binaries_spec env a hb).2, hl]
    intro h
    have hlen := congrArg String.length h
    simp [String.length_append] at hlen
    have h6 : ("cling_" : String).length = 6 := rfl
    have h1 : ("_" : String).length = 1 := rfl
    have h10 : ("ubuntu2204" : String).length = 10 := rfl
    have h3 : ("src" : String).length = 3 := rfl
    rw [h6, h1, h10, h3] at hlen
    omega
  refine ⟨hdox, fun env2 a2 => init_doxygen env2 a2, ?_, ?_, ?_⟩
  · -- packaging never archives the source tree
    have hta : TraceAdds (fun e => ∀ d, e ≠ Event.archive d [("src")])
        ((Builder.init env a).packaging) := by
      have hlast : TraceAdds (fun e => ∀ d, e ≠ Event.archive d [("src")])
          (if (Builder.init env a).label = "ubuntu22" then
             rmtree ("src/.git") >>= fun _ =>
               archive (srcTarPath (Builder.init env a)) [("src")]
           else pure ()) := by
        rw [init_label, hl, if_neg (by decide : ¬ ("ubuntu2204" : String) = "ubuntu22")]
        exact ta_pure _
      have hdocs : TraceAdds (fun e => ∀ d, e ≠ Event.archive d [("src")])
          (Builder.init env a).packDocs := by
        unfold Builder.packDocs
        refine ta_ite ?_ (ta_pure _)
        refine ta_bind (ta_chdir _ ?_) fun _ => ?_
        · intro d h
          exact Event.noConfusion h
        refine ta_bind (ta_archive _ _ ?_) fun _ => ta_chdir _ ?_
        · intro d h
          injection h with hdst hsrcs
          exact absurd hsrcs (by decide)
        · intro d h
          exact Event.noConfusion h
      unfold Builder.packaging
      refine ta_bind (ta_rmIfDir _ ?_ ?_) fun _ => ?_
      · intro ans d h
        exact Event.noConfusion h
      · intro d h
        exact Event.noConfusion h
      refine ta_bind (ta_mkdirp _ ?_) fun _ => ?_
      · intro d h
        exact Event.noConfusion h
      refine ta_ite ?_ (ta_pure _)
      refine ta_bind hdocs fun _ => ?_
      refine ta_bind (ta_archive _ _ ?_) fun _ => hlast
      intro d h
      injection h with hdst hsrcs
      injection hsrcs with hfirst hrest
      exact hinst hfirst
    exact fun e he => hta s e he
  · -- documentation runs the doxygen-cling target
    unfold Builder.documentation
    rw [hdox, if_pos rfl]
    have hcb : (Builder.init env a).cmake_build ("doxygen-cling") true =
        checkCall ((Builder.init env a).cmake ++ " --build . "
          ++ ("--target " ++ "doxygen-cling") ++ (Builder.init env a).parallelFlag) := by
      unfold Builder.cmake_build
      rw [if_pos (by decide : ("doxygen-cling" : String) ≠ ""), if_pos rfl]
    rw [hcb]
    have hcc : checkCall ((Builder.init env a).cmake ++ " --build . "
        ++ ("--target " ++ "doxygen-cling") ++ (Builder.init env a).parallelFlag) s2 =
        (some (), { s2 with
          clock := s2.clock + 1,
          trace := s2.trace ++ [Event.callCheck ((Builder.init env a).cmake
            ++ " --build . " ++ ("--target " ++ "doxygen-cling")
            ++ (Builder.init env a).parallelFlag)] }) := by
      simp [checkCall, next, h2]
    rw [bind_some hcc]
    exact List.IsPrefix.subset
      ((tm_bind (tm_mkdirp _) fun _ => tm_mkdirp _) _) (by simp)
  · -- publish-documentation runs the rsync transfer
    unfold Builder.scp_documentation
    have hcond : ((Builder.init env a).doxygen && (Builder.init env a).binaries) = true := by
      rw [hdox, hb]
      rfl
    rw [hcond, if_pos rfl]
    have hrm : rmIfDir ("doxygen") s3 = (some (), { s3 with
        clock := s3.clock + 1,
        trace := s3.trace ++ [Event.isdirQ ("doxygen") false] }) := by
      simp [rmIfDir, run_bind, run_pure, isdir, next, h3a]
    rw [bind_some hrm]
    have hcp : copytree (pjoin (pjoin (pjoin (Builder.init env a).instdir ("docs"))
        ("html")) ("html")) ("doxygen") { s3 with
          clock := s3.clock + 1,
          trace := s3.trace ++ [Event.isdirQ ("doxygen") false] } =
        (some (), { s3 with
          clock := s3.clock + 1 + 1,
          trace := (s3.trace ++ [Event.isdirQ ("doxygen") false])
            ++ [Event.copytree (pjoin (pjoin (pjoin (Builder.init env a).instdir
                  ("docs")) ("html")) ("html")) ("doxygen")] }) := by
      simp [copytree, next, h3b]
    rw [bind_some hcp]
    simp [checkCall, next]

/-- Running a step marker followed by a continuation. -/
theorem step_bind {β : Type} (n : String) (k : M β) (s : St) :
    (emitStep n >>= fun _ => k) s = k { s with steps := s.steps ++ [n] } := rfl

/-- Sequencing after a normally-returning computation. -/
theorem seq_some {x : M Unit} {k : M Unit} {s t : St} {u : Unit}
    (h : x s = (some u, t)) : (x >>= fun _ => k) s = k t := by
  rw [bind_some h]

/-- Sequencing after a raising computation. -/
theorem seq_none {x : M Unit} {k : M Unit} {s t : St}
    (h : x s = (none, t)) : (x >>= fun _ => k) s = ((none : Option Unit), t) :=
  bind_none h

/-- One link of the pipeline chain: if the head stage prints no marker,
the ordering contract of the whole chain reduces to the two cases of the
head raising or returning. -/
theorem chain_step {x : M Unit} {k : M Unit} {s : St} (hx : PreservesSteps x)
    (hnone : ∀ t : St, t.steps = s.steps → StepsOk ((none : Option Unit), t))
    (hsome : ∀ t : St, t.steps = s.steps → StepsOk (k t)) :
    StepsOk ((x >>= fun _ => k) s) := by
  rcases h : x s with ⟨r, t⟩
  have ht : t.steps = s.steps := by
    have hps := hx s
    rw [h] at hps
    exact hps
  cases r with
  | none =>
    rw [seq_none h]
    exact hnone t ht
  | some u =>
    rw [seq_some h]
    exact hsome t ht

/-- Helper for the abort leaves of the chain: an aborted prefix of the
marker list satisfies the ordering contract. -/
theorem stepsOk_none {t : St} (l : List String) (hp : l <+: canonicalSteps)
    (ht : t.steps = l) : StepsOk ((none : Option Unit), t) :=
  ⟨l, hp, ht, fun hc => Option.noConfusion hc⟩

/-- The ordering contract for every run of the pipeline driver: markers
are printed in the canonical order and a normal return printed all of
them. -/
theorem build_steps_ok (b : Builder) (o : Nat → Bool) : StepsOk (runBuild b o) := by
  unfold runBuild Builder.build
  rw [step_bind]
  refine chain_step (ps_maybe_clean b) (fun t1 h1 => ?_) (fun t1 h1 => ?_) <;>
    simp only [List.nil_append] at h1
  · exact stepsOk_none [("CLEAN")] (by decide) h1
  refine chain_step (ps_mkdirp _) (fun t2 h2 => ?_) (fun t2 h2 => ?_) <;>
    rw [h1] at h2
  · exact stepsOk_none [("CLEAN")] (by decide) h2
  refine chain_step (ps_chdir _) (fun t3 h3 => ?_) (fun t3 h3 => ?_) <;>
    rw [h2] at h3
  · exact stepsOk_none [("CLEAN")] (by decide) h3
  rw [step_bind]
  refine chain_step (ps_configure b) (fun t4 h4 => ?_) (fun t4 h4 => ?_) <;>
    simp only [h3] at h4
  · exact stepsOk_none [("CLEAN"), ("CONFIGURE")] (by decide) h4
  rw [step_bind]
  refine chain_step (ps_make b) (fun t5 h5 => ?_) (fun t5 h5 => ?_) <;>
    simp only [h4] at h5
  · exact stepsOk_none [("CLEAN"), ("CONFIGURE"), ("MAKE")] (by decide) h5
  rw [step_bind]
  refine chain_step (ps_maybe_test b) (fun t6 h6 => ?_) (fun t6 h6 => ?_) <;>
    simp only [h5] at h6
  · exact stepsOk_none [("CLEAN"), ("CONFIGURE"), ("MAKE"), ("TEST")] (by decide) h6
  refine chain_step (ps_chdir _) (fun t7 h7 => ?_) (fun t7 h7 => ?_) <;>
    rw [h6] at h7
  · exact stepsOk_none [("CLEAN"), ("CONFIGURE"), ("MAKE"), ("TEST")] (by decide) h7
  rw [step_bind]
  refine chain_step (ps_scp_documentation b) (fun t8 h8 => ?_) (fun t8 h8 => ?_) <;>
    simp only [h7] at h8
  · exact stepsOk_none
      [("CLEAN"), ("CONFIGURE"), ("MAKE"), ("TEST"), ("COPY DOC TO EOS")]
      (by decide) h8
  rw [step_bind]
  refine chain_step (ps_packaging b) (fun t9 h9 => ?_) (fun t9 h9 => ?_) <;>
    simp only [h8] at h9
  · exact stepsOk_none
      [("CLEAN"), ("CONFIGURE"), ("MAKE"), ("TEST"), ("COPY DOC TO EOS"),
       ("PACKAGING")] (by decide) h9
  rw [step_bind]
  rcases hk : b.housekeeping { t9 with steps := t9.steps ++ [("HOUSEKEEPING")] }
    with ⟨r, t10⟩
  have h10 : t10.steps = canonicalSteps := by
    have hps := ps_housekeeping b { t9 with steps := t9.steps ++ [("HOUSEKEEPING")] }
    rw [hk] at hps
    rw [hps]
    simp only [h9]
    rfl
  cases r with
  | none => exact stepsOk_none canonicalSteps (by decide) h10
  | some u => exact ⟨canonicalSteps, by decide, h10, fun _ => rfl⟩

/-- Claim C1: the pipeline driver prints its stage markers strictly in the
fixed order clean, configure, make, test, publish documentation,
packaging, housekeeping: the printed markers always form a prefix of
that order, a run exits zero exactly when it returned normally (all
markers printed), and an exception anywhere truncates the run — in
particular, a run that stopped after the configure marker (a configure
failure) never printed the make, test, packaging or housekeeping
markers, so none of those stages ran. -/
theorem pipeline_order_and_abort (b : Builder) (o : Nat → Bool) :
    (∃ l, l <+: canonicalSteps ∧ (runBuild b o).2.steps = l
        ∧ ((runBuild b o).1 = some () → l = canonicalSteps))
    ∧ (exitCode (runBuild b o) = 0 ↔ (runBuild b o).1 = some ())
    ∧ ((runBuild b o).2.steps = [("CLEAN"), ("CONFIGURE")] →
        ("MAKE") ∉ (runBuild b o).2.steps ∧ ("TEST") ∉ (runBuild b o).2.steps
        ∧ ("PACKAGING") ∉ (runBuild b o).2.steps
        ∧ ("HOUSEKEEPING") ∉ (runBuild b o).2.steps) := by
  refine ⟨build_steps_ok b o, ?_, ?_⟩
  · rcases h : (runBuild b o).1 with _ | u
    · simp [exitCode, h]
    · cases u
      simp [exitCode, h]
  · intro h
    rw [h]
    exact ⟨by decide, by decide, by decide, by decide⟩

/-- Witness for C1, instantiated at the configure-failure scenario: the
general contract holds there, and in that run the configure call failed,
the run aborted with only the clean and configure markers printed and a
non-zero exit. -/
theorem pipeline_order_and_abort_witness :
    ((∃ l, l <+: canonicalSteps
        ∧ (runBuild (Builder.init hkEnv cfgArgs) cfgOracle).2.steps = l
        ∧ ((runBuild (Builder.init hkEnv cfgArgs) cfgOracle).1 = some () →
            l = canonicalSteps))
      ∧ (exitCode (runBuild (Builder.init hkEnv cfgArgs) cfgOracle) = 0 ↔
          (runBuild (Builder.init hkEnv cfgArgs) cfgOracle).1 = some ())
      ∧ ((runBuild (Builder.init hkEnv cfgArgs) cfgOracle).2.steps
            = [("CLEAN"), ("CONFIGURE")] →
          ("MAKE") ∉ (runBuild (Builder.init hkEnv cfgArgs) cfgOracle).2.steps
          ∧ ("TEST") ∉ (runBuild (Builder.init hkEnv cfgArgs) cfgOracle).2.steps
          ∧ ("PACKAGING") ∉ (runBuild (Builder.init hkEnv cfgArgs) cfgOracle).2.steps
          ∧ ("HOUSEKEEPING") ∉ (runBuild (Builder.init hkEnv cfgArgs) cfgOracle).2.steps))
    ∧ (runBuild (Builder.init hkEnv cfgArgs) cfgOracle).2.steps
        = [("CLEAN"), ("CONFIGURE")]
    ∧ (runBuild (Builder.init hkEnv cfgArgs) cfgOracle).1 = none :=
  ⟨pipeline_order_and_abort (Builder.init hkEnv cfgArgs) cfgOracle, rfl, rfl⟩

/-- Witness for C10 at the documentation-gating scenario: all five
conclusions hold for the concrete `ubuntu2204` nightly plan, with a
packaging run under an all-true oracle and a publish-documentation run
whose `doxygen` staging directory does not pre-exist. -/
theorem docs_substring_gate_vs_source_equality_gate_witness :
    (Builder.init hkEnv docArgs).doxygen = true
    ∧ (∀ (env2 : Env) (a2 : Args),
        (Builder.init env2 a2).doxygen = strContains a2.label ("ubuntu22"))
    ∧ (∀ e ∈ (((Builder.init hkEnv docArgs).packaging)
          { oracle := fun _ => true, clock := 0, steps := [], trace := [] }).2.trace,
        e ∈ ({ oracle := fun _ => true, clock := 0, steps := [],
               trace := [] } : St).trace
          ∨ ∀ d, e ≠ Event.archive d [("src")])
    ∧ Event.callCheck ((Builder.init hkEnv docArgs).cmake ++ " --build . "
          ++ ("--target " ++ "doxygen-cling") ++ (Builder.init hkEnv docArgs).parallelFlag)
        ∈ (((Builder.init hkEnv docArgs).documentation)
            { oracle := fun _ => true, clock := 0, steps := [], trace := [] }).2.trace
    ∧ Event.callCheck rsyncCmd ∈ (((Builder.init hkEnv docArgs).scp_documentation)
          { oracle := fun n => n == 1, clock := 0, steps := [], trace := [] }).2.trace :=
  docs_substring_gate_vs_source_equality_gate hkEnv docArgs
    { oracle := fun _ => true, clock := 0, steps := [], trace := [] }
    { oracle := fun _ => true, clock := 0, steps := [], trace := [] }
    { oracle := fun n => n == 1, clock := 0, steps := [], trace := [] }
    rfl rfl rfl rfl rfl

end ClingBuild
